import Mathlib

/-!
# Verification of the idea-kill-switch decision pipeline

Shallow embedding of the deterministic core of the `idea-kill-switch`
repository (a staged "continue vs. kill" evaluation funnel):

* the three-level threshold evaluator of `src/modules/pain_research.py`
  (`_evaluate_thresholds`, `_analyze_complaints` defaulting, `run_research`);
* the pricing extractor, paying-competitor counter and stage kill-decision
  policy of `src/modules/market_analysis.py` (`_extract_pricing`,
  `_count_paying_competitors`, `run_analysis`);
* the navigation state machine of `src/app.py`.

External collaborators (the web-search service, the text-generation service,
the scrape service, the progress callback and Python's `re` module) are
modelled as explicit parameters: fallible calls are `Except String`-valued,
and `re.findall` is an oracle function from a regex source string and a
subject text to the list of matches (each match being the list of captured
groups; single-group patterns yield singleton lists, exactly as Python's
`re.findall` yields plain strings for them).

Python `dict`s with optional keys are modelled as structures with `Option`
fields; `d.get(k, v)` becomes `Option.getD`.  Numeric JSON values read by
the evaluator are modelled as `Int` (the repository's prompts request
integers) and prices as `ℚ` (Python floats whose reachable values here are
decimal literals).
-/

namespace KillSwitch

/-- Helper for `strContains`: does `pat` occur as a contiguous run in the
character list? -/
def strContainsAux (pat : List Char) : List Char → Bool
  | [] => pat.isEmpty
  | c :: rest => pat.isPrefixOf (c :: rest) || strContainsAux pat rest

/-- Python's substring test `pat in s` (`str.__contains__`). -/
def strContains (s pat : String) : Bool :=
  strContainsAux pat.toList s.toList

/-- Python's `str.lower()` (the embedded texts are ASCII, where
`Char.toLower` agrees with Python). -/
def strToLower (s : String) : String :=
  ⟨s.toList.map Char.toLower⟩

/-- `s.split(":")[0]`: the prefix of `s` before its first colon. -/
def strBeforeColon (s : String) : String :=
  ⟨s.toList.takeWhile (fun c => c ≠ ':')⟩

/-- Digit-run parse on a character list. -/
def parseNatDigitsAux (cs : List Char) : Option Nat :=
  if cs.length > 0 && cs.all Char.isDigit then
    some (cs.foldl (fun acc c => 10 * acc + (c.toNat - 48)) 0)
  else none

/-- Python's `int(s)` guarded by `s.isdigit()`: parses a nonempty all-digit
string (the only strings the embedded code feeds to `int` are `\d+` regex
groups). -/
def parseNatDigits (s : String) : Option Nat :=
  parseNatDigitsAux s.toList

/-- Split a character list at every `'.'` (Python `s.split(".")`). -/
def splitDot : List Char → List (List Char)
  | [] => [[]]
  | c :: rest =>
    match splitDot rest with
    | [] => [[]]
    | h :: t => if c = '.' then [] :: h :: t else (c :: h) :: t

/-- Python's `float(s)` on the strings reachable from the pricing regexes
(shape `\d+(\.\d+)?`); any other string raises `ValueError`, i.e. `none`. -/
def parsePrice (s : String) : Option ℚ :=
  match splitDot s.toList with
  | [w] => (parseNatDigitsAux w).map (fun n => (n : ℚ))
  | [w, f] =>
    match parseNatDigitsAux w, parseNatDigitsAux f with
    | some wn, some fn => some ((wn : ℚ) + (fn : ℚ) / ((10 : ℚ) ^ f.length))
    | _, _ => none
  | _ => none

/-! ## Configuration constants (`src/config/settings.py`) -/

def EASY_COMPLAINTS_REQUIRED : Int := 20
def EASY_PAIN_SCORE : Int := 5
def MEDIUM_COMPLAINTS_REQUIRED : Int := 40
def MEDIUM_PAIN_SCORE : Int := 6
def DIFFICULT_COMPLAINTS_REQUIRED : Int := 60
def DIFFICULT_PAIN_SCORE : Int := 8
def DIFFICULT_URGENCY_THRESHOLD : Int := 40
def DIFFICULT_EMOTIONAL_THRESHOLD : Int := 30
def MIN_COMPETITOR_PRICE : Int := 50
def MAX_DISPLAY_COMPLAINTS : Nat := 20
def MAX_DISPLAY_COMPETITORS : Nat := 10

/-! ## Pain research data model (`src/modules/pain_research.py`) -/

/-- The `complaint_breakdown` JSON object produced by the text-generation
collaborator; all keys optional (partial dict). -/
structure ComplaintBreakdown where
  tier_3_high_impact : Option Int
  tier_2_moderate : Option Int
  tier_1_low_value : Option Int
  tier_0_not_complaints : Option Int
  total_analyzed : Option Int
deriving DecidableEq, Repr

/-- The empty dict `{}` that `results["complaint_breakdown"]` is initialised to. -/
def emptyBreakdown : ComplaintBreakdown := ⟨none, none, none, none, none⟩

/-- The `quality_metrics` JSON object; all keys optional.  (The
`high_impact_ratio` key, which no deterministic code of the pipeline ever
reads, is not tracked.) -/
structure QualityMetrics where
  quality_score : Option ℚ
  urgency_percentage : Option Int
  emotional_intensity_percentage : Option Int
  quality_rating : Option String
deriving DecidableEq, Repr

def emptyQualityMetrics : QualityMetrics := ⟨none, none, none, none⟩

/-- The parsed JSON analysis returned by the text-generation collaborator
in `_analyze_complaints`; every key may be missing. -/
structure Analysis where
  pain_score : Option Int
  themes : Option (List String)
  key_quotes : Option (List String)
  is_urgent_problem : Option Bool
  analysis_summary : Option String
  complaint_breakdown : Option ComplaintBreakdown
  weighted_complaint_score : Option Int
  quality_metrics : Option QualityMetrics
  high_impact_quotes : Option (List String)
deriving DecidableEq, Repr

/-- The default-substitution logic of `_analyze_complaints`
(pain_research.py lines 317–354): fill the five required fields, then the
`complaint_breakdown` / `weighted_complaint_score` / `quality_metrics`
defaults, then the (dead, since `key_quotes` was just defaulted)
`high_impact_quotes` rename.  `n` is `len(complaints_for_analysis)`. -/
def normalizeAnalysis (n : Nat) (a : Analysis) : Analysis :=
  let a1 : Analysis :=
    { a with
      pain_score := some (a.pain_score.getD 5)
      themes := some (a.themes.getD [])
      key_quotes := some (a.key_quotes.getD [])
      is_urgent_problem := some (a.is_urgent_problem.getD false)
      analysis_summary := some (a.analysis_summary.getD "Analysis incomplete") }
  let a2 : Analysis :=
    { a1 with
      complaint_breakdown := some (a1.complaint_breakdown.getD
        ⟨some 0, some 0, some (n : Int), some 0, some (n : Int)⟩)
      weighted_complaint_score := some (a1.weighted_complaint_score.getD (n : Int))
      quality_metrics := some (a1.quality_metrics.getD
        ⟨some (1/2 : ℚ), some 30, some 20, some "medium"⟩) }
  if a2.high_impact_quotes.isSome && a2.key_quotes.isNone then
    { a2 with key_quotes := a2.high_impact_quotes }
  else a2

/-- Outcome of the text-generation call inside `_analyze_complaints`:
either the JSON parsed (`ok`), or `json.loads` failed but the regex
extraction recovered an object (`extracted` — returned *without* the
default-substitution pass, pain_research.py line 369), or both parses
failed (`parseFailed`), or the call itself raised (`raised`). -/
inductive ClaudeResp where
  | ok (a : Analysis)
  | extracted (a : Analysis)
  | parseFailed
  | raised (e : String)

/-- `_analyze_complaints` (pain_research.py lines 239–389), as a function of
the collaborator outcome; `n = len(complaints_for_analysis)`.  Every failure
is handled internally — the function itself never raises. -/
def analyzeComplaints (n : Nat) (resp : ClaudeResp) : Analysis :=
  match resp with
  | .ok a => normalizeAnalysis n a
  | .extracted a => a
  | .parseFailed =>
    { pain_score := some 5, themes := some ["Unable to parse analysis"],
      key_quotes := some [], is_urgent_problem := some false,
      analysis_summary := some "Analysis failed - could not parse response",
      complaint_breakdown := none, weighted_complaint_score := none,
      quality_metrics := none, high_impact_quotes := none }
  | .raised e =>
    { pain_score := some 0, themes := some ["Error during analysis"],
      key_quotes := some [], is_urgent_problem := some false,
      analysis_summary := some ("Error: " ++ e),
      complaint_breakdown := none, weighted_complaint_score := none,
      quality_metrics := none, high_impact_quotes := none }

/-! ## Threshold evaluator (`_evaluate_thresholds`, pain_research.py 391–489) -/

/-- The fields `_evaluate_thresholds` reads out of the `results` dict. -/
structure PainMetrics where
  weighted_complaint_score : Option Int
  pain_score : Option Int
  quality_metrics : Option QualityMetrics
deriving DecidableEq, Repr

/-- The `criteria` snapshot dict of one threshold evaluation (level-specific
keys are optional). -/
structure Criteria where
  complaints_required : Int
  pain_score_required : Int
  actual_complaints : Int
  actual_pain_score : Int
  quality_required : Option String
  urgency_required : Option Int
  emotional_required : Option Int
  actual_urgency : Option Int
  actual_emotional : Option Int
deriving DecidableEq, Repr

/-- One level's evaluation dict. -/
structure ThresholdEval where
  name : String
  passed : Bool
  reason : String
  criteria : Criteria
deriving DecidableEq, Repr

/-- The three-level evaluation dict returned by `_evaluate_thresholds`. -/
structure Evaluations where
  easy : ThresholdEval
  medium : ThresholdEval
  difficult : ThresholdEval
deriving DecidableEq, Repr

/-- The dict as an (insertion-ordered) key/value list. -/
def evaluationsToList (e : Evaluations) : List (String × ThresholdEval) :=
  [("easy", e.easy), ("medium", e.medium), ("difficult", e.difficult)]

/-- The ordered unmet-criterion list built for the easy level
(pain_research.py lines 443–447). -/
def easyReasons (cE pE ws ps : Int) : List String :=
  (if ws < cE then [s!"Weighted complaints: {ws}/{cE}"] else []) ++
  (if ps < pE then [s!"Pain score: {ps}/{pE}"] else [])

/-- The ordered unmet-criterion list built for the medium level
(lines 457–463). -/
def mediumReasons (cM pM ws ps : Int) (qr : String) : List String :=
  (if ws < cM then [s!"Weighted complaints: {ws}/{cM}"] else []) ++
  (if ps < pM then [s!"Pain score: {ps}/{pM}"] else []) ++
  (if !(qr == "medium" || qr == "high") then [s!"Quality: {qr} (need medium+)"] else [])

/-- The ordered unmet-criterion list built for the difficult level
(lines 476–486): complaints, pain, urgency, emotional, then quality. -/
def difficultReasons (cD pD uT eT ws ps : Int) (qr : String) (u e : Int) : List String :=
  (if ws < cD then [s!"Weighted complaints: {ws}/{cD}"] else []) ++
  (if ps < pD then [s!"Pain score: {ps}/{pD}"] else []) ++
  (if !(u ≥ uT) then [s!"Urgency: {u}%/{uT}%"] else []) ++
  (if !(e ≥ eT) then [s!"Emotional: {e}%/{eT}%"] else []) ++
  (if !(qr == "high") then [s!"Quality: {qr} (need high)"] else [])

/-- `_evaluate_thresholds`, with the six per-level required minimums and the
two difficult-level percentage thresholds lifted to parameters (the source
binds them to the settings constants; `evaluateThresholds` below restores
that binding). -/
def evaluateThresholdsWith (cE pE cM pM cD pD uT eT : Int) (m : PainMetrics) :
    Evaluations :=
  let ws := m.weighted_complaint_score.getD 0
  let ps := m.pain_score.getD 0
  let qm := m.quality_metrics.getD emptyQualityMetrics
  let qr := qm.quality_rating.getD "low"
  let u := qm.urgency_percentage.getD 0
  let e := qm.emotional_intensity_percentage.getD 0
  let qualityOk := qr == "medium" || qr == "high"
  let qualityHigh := qr == "high"
  let easyEval : ThresholdEval :=
    if ws ≥ cE ∧ ps ≥ pE then
      { name := "Easy (Market Exists)", passed := true, reason := "",
        criteria := ⟨cE, pE, ws, ps, none, none, none, none, none⟩ }
    else
      { name := "Easy (Market Exists)", passed := false,
        reason := String.intercalate " | " (easyReasons cE pE ws ps),
        criteria := ⟨cE, pE, ws, ps, none, none, none, none, none⟩ }
  let mediumEval : ThresholdEval :=
    if ws ≥ cM ∧ ps ≥ pM ∧ qualityOk = true then
      { name := "Medium (Strong Opportunity)", passed := true, reason := "",
        criteria := ⟨cM, pM, ws, ps, some "medium", none, none, none, none⟩ }
    else
      { name := "Medium (Strong Opportunity)", passed := false,
        reason := String.intercalate " | " (mediumReasons cM pM ws ps qr),
        criteria := ⟨cM, pM, ws, ps, some "medium", none, none, none, none⟩ }
  let difficultEval : ThresholdEval :=
    if ws ≥ cD ∧ ps ≥ pD ∧ u ≥ uT ∧ e ≥ eT ∧ qualityHigh = true then
      { name := "Difficult (Exceptional Problem)", passed := true, reason := "",
        criteria := ⟨cD, pD, ws, ps, some "high", some uT, some eT, some u, some e⟩ }
    else
      { name := "Difficult (Exceptional Problem)", passed := false,
        reason := String.intercalate " | " (difficultReasons cD pD uT eT ws ps qr u e),
        criteria := ⟨cD, pD, ws, ps, some "high", some uT, some eT, some u, some e⟩ }
  { easy := easyEval, medium := mediumEval, difficult := difficultEval }

/-- `_evaluate_thresholds` with the repository's configured thresholds. -/
def evaluateThresholds (m : PainMetrics) : Evaluations :=
  evaluateThresholdsWith EASY_COMPLAINTS_REQUIRED EASY_PAIN_SCORE
    MEDIUM_COMPLAINTS_REQUIRED MEDIUM_PAIN_SCORE
    DIFFICULT_COMPLAINTS_REQUIRED DIFFICULT_PAIN_SCORE
    DIFFICULT_URGENCY_THRESHOLD DIFFICULT_EMOTIONAL_THRESHOLD m

/-- The spec's derived `WeightedScore` of an evidence breakdown:
`3*tier3 + 2*tier2 + 1*tier1` (spec §3); tier counts read with the same
`.get(…, 0)` defaulting the repository uses for breakdown fields. -/
def weightedScoreOf (b : ComplaintBreakdown) : Int :=
  3 * b.tier_3_high_impact.getD 0 + 2 * b.tier_2_moderate.getD 0 +
    1 * b.tier_1_low_value.getD 0

/-! ## Market analysis data model (`src/modules/market_analysis.py`) -/

/-- The `pricing` dict built by `_extract_pricing`. -/
structure PricingInfo where
  found : Bool
  monthly : Option ℚ
  annual : Option ℚ
  model : String
deriving DecidableEq, Repr

/-- A review item from the search collaborator. -/
structure Review where
  title : Option String
  snippet : Option String
deriving DecidableEq, Repr

/-- A competitor record (raw from search, or enriched).  Keys the
deterministic logic never reads (`avg_rating`, `competitive_intel`) are not
tracked. -/
structure Competitor where
  name : Option String
  description : Option String
  title : Option String
  snippet : Option String
  link : Option String
  pricing_mentioned : Option Bool
  content_available : Option Bool
  full_content : Option String
  pricing : Option PricingInfo
  reviews_found : Option Nat
  sample_reviews : Option (List Review)
deriving DecidableEq, Repr

/-- A competitor dict with no keys at all. -/
def emptyCompetitor : Competitor :=
  ⟨none, none, none, none, none, none, none, none, none, none, none⟩

/-- The model of Python's `re.findall(pattern, text, …)`: from the regex
source string and the subject text to the ordered list of matches, each
match being the list of its captured groups. -/
abbrev Findall := String → String → List (List String)

/-- The ordered `monthly_patterns` cascade of `_extract_pricing`
(market_analysis.py lines 441–456), as `(regex source, group_num)` pairs. -/
def monthly_patterns : List (String × Nat) :=
  [("\\$(\\d+(?:\\.\\d+)?)\\s*(?:per\\s*)?month", 1),
   ("\\$(\\d+(?:\\.\\d+)?)/mo", 1),
   ("(\\d+(?:\\.\\d+)?)\\s*USD\\s*(?:per\\s*)?month", 1),
   ("\\$(\\d+(?:\\.\\d+)?)\\s*(?:per\\s*)?user", 1),
   ("from\\s*\\$(\\d+(?:\\.\\d+)?)", 1),
   ("starting\\s*at\\s*\\$(\\d+(?:\\.\\d+)?)", 1),
   ("plans\\s*from\\s*\\$(\\d+(?:\\.\\d+)?)", 1),
   ("starts\\s*at\\s*\\$(\\d+(?:\\.\\d+)?)", 1),
   ("pricing\\s*starts\\s*at\\s*\\$(\\d+(?:\\.\\d+)?)", 1),
   ("\\$(\\d+(?:\\.\\d+)?)\\s*-\\s*\\$(\\d+(?:\\.\\d+)?)", 1),
   ("between\\s*\\$(\\d+(?:\\.\\d+)?)\\s*(?:and|to)\\s*\\$(\\d+(?:\\.\\d+)?)", 1),
   ("costs?\\s*\\$(\\d+(?:\\.\\d+)?)", 1),
   ("priced?\\s*at\\s*\\$(\\d+(?:\\.\\d+)?)", 1),
   ("\\$(\\d+(?:\\.\\d+)?)\\s*(?:for|per)", 1)]

/-- The bare-dollar fallback pattern of `_extract_pricing` (line 484). -/
def simple_pattern : String := "\\$(\\d+(?:\\.\\d+)?)"

/-- `price_str = match[group_num-1] if len(match) >= group_num else match[0]`
for tuple matches (patterns with ≥ 2 groups); plain string otherwise
(lines 464–468). -/
def extractGroup (groups : List String) (g : Nat) : String :=
  if groups.length ≥ 2 then
    if groups.length ≥ g then groups.getD (g - 1) "" else groups.getD 0 ""
  else groups.getD 0 ""

/-- The `for pattern, group_num in monthly_patterns` loop (lines 459–479):
per pattern only `matches[0]` is examined; a failed parse (`except`) or an
out-of-band value falls through to the next pattern. -/
def firstPatternPrice (findall : Findall) (text : String) :
    List (String × Nat) → Option ℚ
  | [] => none
  | (pat, g) :: rest =>
    match (findall pat text).head? with
    | none => firstPatternPrice findall text rest
    | some groups =>
      match parsePrice (extractGroup groups g) with
      | none => firstPatternPrice findall text rest
      | some price =>
        if 5 ≤ price ∧ price ≤ 10000 then some price
        else firstPatternPrice findall text rest

/-- The fallback `for match in matches` scan over every bare-dollar match
(lines 486–495). -/
def fallbackScan : List (List String) → Option ℚ
  | [] => none
  | groups :: rest =>
    match parsePrice (groups.getD 0 "") with
    | none => fallbackScan rest
    | some price =>
      if 5 ≤ price ∧ price ≤ 10000 then some price else fallbackScan rest

/-- The `all_text` concatenation of `_extract_pricing` (lines 427–438):
description/title/snippet, scraped content prepended when deep analysis
supplied it, review snippets and titles appended. -/
def allTextFor (comp : Competitor) (reviews : List Review) (use_deep : Bool) :
    String :=
  let base := comp.description.getD "" ++ " " ++ comp.title.getD "" ++ " " ++
    comp.snippet.getD ""
  let base :=
    if use_deep && comp.content_available.getD false &&
        comp.full_content.getD "" != "" then
      comp.full_content.getD "" ++ " " ++ base
    else base
  (reviews.take 5).foldl
    (fun acc r => acc ++ " " ++ r.snippet.getD "" ++ " " ++ r.title.getD "") base

/-- `_extract_pricing` (market_analysis.py lines 411–497). -/
def extractPricing (findall : Findall) (comp : Competitor)
    (reviews : List Review) (use_deep : Bool) : PricingInfo :=
  let all_text := allTextFor comp reviews use_deep
  match firstPatternPrice findall all_text monthly_patterns with
  | some price =>
    { found := true, monthly := some price, annual := none, model := "Subscription" }
  | none =>
    if comp.pricing_mentioned.getD false then
      match fallbackScan (findall simple_pattern all_text) with
      | some price =>
        { found := true, monthly := some price, annual := none,
          model := "Subscription (estimated)" }
      | none => { found := false, monthly := none, annual := none, model := "Unknown" }
    else { found := false, monthly := none, annual := none, model := "Unknown" }

/-! ## Competitor counter (`_count_paying_competitors`, lines 506–577) -/

/-- The `price_patterns` used on competitors that merely mention pricing. -/
def price_patterns : List String :=
  ["\\$(\\d+)", "(\\d+)\\s*USD", "from\\s*\\$(\\d+)",
   "starting\\s*at\\s*\\$(\\d+)", "\\$(\\d+)\\s*-\\s*\\$(\\d+)"]

/-- The strong paid-B2B lexical signals of the low-confidence backstop
(line 572). -/
def strong_indicators : List String :=
  ["enterprise", "business pricing", "professional plan", "team plan",
   "premium", "per user", "per month", "subscription"]

/-- The `for match in matches` loop of the pricing-mention branch
(lines 541–557): each match's digit groups are parsed; the first one
`≥ MIN_COMPETITOR_PRICE` adds full credit and sets `found_price`; once
`found_price` holds, the match loop breaks after the current match. -/
def scanMatchesForHigh (name : String) :
    List (List String) → Bool → ℚ → List String → Bool × ℚ × List String
  | [], found, cnt, strs => (found, cnt, strs)
  | groups :: rest, found, cnt, strs =>
    let prices := groups.filterMap parseNatDigits
    match prices.find? (fun p => decide ((p : Int) ≥ MIN_COMPETITOR_PRICE)) with
    | some p => (true, cnt + 1, strs ++ [s!"{name}: ${p}+ mentioned"])
    | none =>
      if found then (found, cnt, strs)
      else scanMatchesForHigh name rest found cnt strs

/-- The `for pattern in price_patterns` loop (lines 539–557): note the
source has no pattern-level break, so later patterns still process their
first match even after `found_price` is set. -/
def scanPatternsForHigh (findall : Findall) (text name : String) :
    List String → Bool → ℚ → List String → Bool × ℚ × List String
  | [], found, cnt, strs => (found, cnt, strs)
  | pat :: rest, found, cnt, strs =>
    let r := scanMatchesForHigh name (findall pat text) found cnt strs
    scanPatternsForHigh findall text name rest r.1 r.2.1 r.2.2

/-- The body of the steps 1–2 loop of `_count_paying_competitors`
(lines 514–562), for one competitor: full credit for found pricing
`≥ MIN_COMPETITOR_PRICE` (with a truthiness check on the monthly value),
else the pricing-mention scan with its half-credit fallback. -/
def countStep12Step (findall : Findall) (acc : ℚ × List String)
    (comp : Competitor) : ℚ × List String :=
  let count := acc.1
  let strs := acc.2
  let name := comp.name.getD "Unknown"
  let foundB := (comp.pricing.map PricingInfo.found).getD false
  let monthlyTruthy : Bool :=
    match comp.pricing.bind PricingInfo.monthly with
    | some m => m != 0
    | none => false
  if foundB && monthlyTruthy then
    let m := (comp.pricing.bind PricingInfo.monthly).getD 0
    if m ≥ (MIN_COMPETITOR_PRICE : ℚ) then
      (count + 1, strs ++ [s!"{name}: ${m}/mo"])
    else (count, strs)
  else if comp.pricing_mentioned.getD false then
    let text := comp.description.getD "" ++ " " ++ comp.title.getD ""
    let r := scanPatternsForHigh findall text name price_patterns false count strs
    if !r.1 ∧ strContains (strToLower text) "pricing" then
      (r.2.1 + 1/2, r.2.2)
    else (r.2.1, r.2.2)
  else (count, strs)

/-- Steps 1–2 of `_count_paying_competitors`: running (float) total plus
the `competitors_with_pricing` string list. -/
def countStep12 (findall : Findall) (competitors : List Competitor) :
    ℚ × List String :=
  competitors.foldl (countStep12Step findall) (0, [])

/-- The body of the step-3 backstop loop (lines 566–574) for one
competitor: half credit for a strong paid-product lexical signal, skipping
competitors already counted into `competitors_with_pricing`. -/
def countStep3Step (strs : List String) (c : ℚ) (comp : Competitor) : ℚ :=
  if (strs.map strBeforeColon).contains (comp.name.getD "Unknown") then c
  else
    let desc := strToLower (comp.description.getD "" ++ " " ++ comp.title.getD "")
    if strong_indicators.any (fun w => strContains desc w) then c + 1/2
    else c

/-- Step 3, the lexical-signal backstop (lines 564–574), applied only when
the running total is still below 3. -/
def countStep3 (competitors : List Competitor) (count : ℚ)
    (strs : List String) : ℚ :=
  if count < 3 then competitors.foldl (countStep3Step strs) count
  else count

/-- `_count_paying_competitors` (lines 506–577): `int(count)` of the
running total (truncation = floor for the non-negative total). -/
def countPayingCompetitors (findall : Findall) (competitors : List Competitor) :
    Int :=
  let r := countStep12 findall competitors
  ⌊countStep3 competitors r.1 r.2⌋

/-! ## Market analysis collaborator output and kill decision -/

/-- The `avg_pricing` JSON sub-object (keys optional). -/
structure AvgPricing where
  monthly_low : Option ℚ
  monthly_high : Option ℚ
  monthly_average : Option ℚ
deriving DecidableEq, Repr

/-- The parsed market-analysis JSON from the text-generation collaborator
(fields the kill decision and results dict read; the display-only enhanced
fields are not tracked). -/
structure MarketAnalysis where
  market_size : Option String
  avg_pricing : Option AvgPricing
  gaps : Option (List String)
  opportunity_score : Option Int
  insights : Option String
  top_competitors : Option (List String)
deriving DecidableEq, Repr

/-- `_analyze_market`'s backward-compatibility default (lines 637–642):
an absent `avg_pricing` becomes the all-zero dict. -/
def normalizeMarketAnalysis (a : MarketAnalysis) : MarketAnalysis :=
  { a with avg_pricing := some (a.avg_pricing.getD ⟨some 0, some 0, some 0⟩) }

/-- Outcome of the text-generation call inside `_analyze_market`. -/
inductive MarketClaudeResp where
  | ok (a : MarketAnalysis)
  | parseFailed
  | raised (e : String)

/-- `_analyze_market` (lines 579–712) as a function of the collaborator
outcome; all failures handled internally. -/
def analyzeMarket (resp : MarketClaudeResp) : MarketAnalysis :=
  match resp with
  | .ok a => normalizeMarketAnalysis a
  | .parseFailed =>
    { market_size := some "Unable to determine",
      avg_pricing := some ⟨some 0, some 0, some 0⟩,
      gaps := some ["Analysis failed"], opportunity_score := some 0,
      insights := some "Failed to parse analysis", top_competitors := some [] }
  | .raised e =>
    { market_size := some "Error",
      avg_pricing := some ⟨some 0, some 0, some 0⟩,
      gaps := some ["Error: " ++ e], opportunity_score := some 0,
      insights := some ("Analysis error: " ++ e), top_competitors := some [] }

/-- The `\$(\d+)` scan over one of the analysis's top-competitor strings
(run_analysis lines 123–135): the first parseable price `≥ 50` counts the
competitor once. -/
def compStrHasHighPrice (findall : Findall) (comp_str : String) : Bool :=
  let price_matches := (findall "\\$(\\d+)" comp_str).map (fun g => g.getD 0 "")
  ((price_matches.filterMap parseNatDigits).find?
    (fun p => decide ((p : Int) ≥ MIN_COMPETITOR_PRICE))).isSome

/-- Count of top-competitor strings containing a `$`-price `≥ 50`. -/
def countClaudeCompetitors (findall : Findall) (top : List String) : Nat :=
  top.foldl (fun cnt s => if compStrHasHighPrice findall s then cnt + 1 else cnt) 0

/-- The count the kill gate of `run_analysis` compares against 3
(lines 117–148): the maximum of the analysis-derived count — the
top-competitor `$`-price scan, bumped to 3 when the reported average price
reaches the minimum, the scan found fewer than 3, and at least 3
competitors were enriched — and the Competitor Counter's count. -/
def payingCompetitorCount (findall : Findall) (analysis : MarketAnalysis)
    (enriched : List Competitor) : Int :=
  let claude0 :=
    match analysis.top_competitors with
    | some l => countClaudeCompetitors findall l
    | none => 0
  let avgFromAnalysis : ℚ :=
    ((analysis.avg_pricing.getD ⟨none, none, none⟩).monthly_average).getD 0
  let claudeHigh : Nat :=
    if avgFromAnalysis ≥ (MIN_COMPETITOR_PRICE : ℚ) ∧ claude0 < 3 ∧
        enriched.length ≥ 3 then 3
    else claude0
  max (claudeHigh : Int) (countPayingCompetitors findall enriched)

/-- The kill/continue decision step of `run_analysis` (lines 115–172),
given the (normalized) analysis and the enriched competitor list.
`results["opportunity_score"]` is the analysis value when present, else the
initial 0; `results["avg_pricing"]` is the analysis sub-dict, whose missing
`monthly_average` key raises a `KeyError` at line 164 (modelled as
`.error`). -/
def marketKillStep (findall : Findall) (analysis : MarketAnalysis)
    (enriched : List Competitor) : Except String (Bool × String) :=
  let paying : Int := payingCompetitorCount findall analysis enriched
  if paying < 3 then
    .ok (true, s!"Only {paying} competitors charging ${MIN_COMPETITOR_PRICE}+/month found")
  else
    match analysis.avg_pricing with
    | none => .error "'avg_pricing'"
    | some ap =>
      match ap.monthly_average with
      | none => .error "'monthly_average'"
      | some v =>
        if v < (MIN_COMPETITOR_PRICE : ℚ) then
          .ok (true, s!"Average market pricing ${v} is below ${MIN_COMPETITOR_PRICE} threshold")
        else
          let opp := analysis.opportunity_score.getD 0
          if opp < 6 then
            .ok (true, s!"Low market opportunity score: {opp}/10")
          else .ok (false, "")

/-! ## Pain research stage runner (`run_research`, pain_research.py 35–117)

The search collaborator oracle stands for the Serper call plus
`clean_search_results`; the Firecrawl oracle stands for scrape-client
construction plus `get_scraped_content_for_analysis`; the progress callback
is a fallible collaborator keyed by the message it is invoked with (every
message in the stage is distinct). -/

/-- A cleaned search-result item. -/
structure Complaint where
  title : Option String
  snippet : Option String
  source : Option String
  link : Option String
  content_available : Option Bool
  analysis_text : Option String
  full_content : Option String
deriving DecidableEq, Repr

/-- The promotional-content exclusion keywords of `_search_for_complaints`
(lines 215–218). -/
def exclude_keywords : List String :=
  ["buy now", "limited offer", "sale", "discount code",
   "affiliate", "sponsored", "advertisement", "press release"]

/-- The relaxed filtering of `_search_for_complaints` (lines 211–233):
drop items whose lowercased title+snippet contains an exclusion keyword,
then fall back to the unfiltered list when more than half was dropped
(`len(filtered) < len(complaints) * 0.5`). -/
def filterComplaints (complaints : List Complaint) : List Complaint :=
  let filtered := complaints.filter (fun c =>
    let text := strToLower (c.title.getD "" ++ " " ++ c.snippet.getD "")
    !(exclude_keywords.any (fun k => strContains text k)))
  if 2 * filtered.length < complaints.length then complaints else filtered

/-- `_search_for_complaints` (lines 119–237): a failing search collaborator
is caught internally and yields `[]`; with deep analysis enabled and a
configured key, a raise from the callback or scraper inside the deep block
is caught and falls back to the snippet-only list. -/
def searchForComplaints (searchO : Except String (List Complaint))
    (cb : String → Except String Unit) (use_deep firecrawl_key : Bool)
    (firecrawlO : Except String (List Complaint)) : List Complaint :=
  match searchO with
  | .error _ => []
  | .ok complaints =>
    let complaints :=
      if use_deep && firecrawl_key then
        match cb "🔥 Scraping full content for deeper analysis..." with
        | .error _ => complaints
        | .ok _ =>
          match firecrawlO with
          | .error _ => complaints
          | .ok scraped => scraped
      else complaints
    filterComplaints complaints

/-- The `results` dict of `run_research` (fields of the initial dict plus
the keys the stage adds). -/
structure PainResults where
  problem : String
  complaints_found : Nat
  pain_score : Int
  themes : List String
  key_quotes : List String
  is_urgent_problem : Bool
  analysis_summary : String
  kill_decision : Bool
  kill_reason : String
  complaint_breakdown : ComplaintBreakdown
  weighted_complaint_score : Int
  quality_metrics : QualityMetrics
  threshold_evaluations : Option Evaluations
  sample_complaints : List Complaint
  error : Option String
deriving Repr

/-- The initial `results` dict of `run_research` (lines 54–68);
`kill_decision` starts `True`. -/
def initPainResults (problem : String) : PainResults :=
  { problem := problem, complaints_found := 0, pain_score := 0, themes := [],
    key_quotes := [], is_urgent_problem := false, analysis_summary := "",
    kill_decision := true, kill_reason := "",
    complaint_breakdown := emptyBreakdown, weighted_complaint_score := 0,
    quality_metrics := emptyQualityMetrics, threshold_evaluations := none,
    sample_complaints := [], error := none }

/-- `results.update(analysis)` (line 98): keys present in the analysis dict
overwrite, absent keys keep the prior value. -/
def updateWithAnalysis (r : PainResults) (a : Analysis) : PainResults :=
  { r with
    pain_score := a.pain_score.getD r.pain_score
    themes := a.themes.getD r.themes
    key_quotes := a.key_quotes.getD r.key_quotes
    is_urgent_problem := a.is_urgent_problem.getD r.is_urgent_problem
    analysis_summary := a.analysis_summary.getD r.analysis_summary
    complaint_breakdown := a.complaint_breakdown.getD r.complaint_breakdown
    weighted_complaint_score :=
      a.weighted_complaint_score.getD r.weighted_complaint_score
    quality_metrics := a.quality_metrics.getD r.quality_metrics }

/-- The boundary `except` handler of `run_research` (lines 113–115): the
partial results are kept, `error` and `kill_reason` set, `kill_decision`
left untouched. -/
def painErrorOut (r : PainResults) (e : String) : PainResults :=
  { r with error := some e, kill_reason := "Error during research: " ++ e }

/-- `run_research` (pain_research.py lines 35–117).  The only calls whose
exceptions reach the stage-boundary `except` are the three progress-callback
invocations: the search and text-generation collaborators are wrapped in
their own internal handlers. -/
def runResearch (problem : String) (searchO : Except String (List Complaint))
    (claudeO : ClaudeResp) (cb : String → Except String Unit)
    (use_ai_queries use_deep firecrawl_key : Bool)
    (firecrawlO : Except String (List Complaint)) : PainResults :=
  let r0 := initPainResults problem
  let msg1 := if use_ai_queries then "🤖 Generating AI-optimized search queries..."
              else "Searching for complaints across platforms..."
  match cb msg1 with
  | .error e => painErrorOut r0 e
  | .ok _ =>
    let complaints := searchForComplaints searchO cb use_deep firecrawl_key firecrawlO
    let r1 := { r0 with complaints_found := complaints.length,
                        sample_complaints := complaints.take MAX_DISPLAY_COMPLAINTS }
    match cb "Analyzing complaint patterns and urgency..." with
    | .error e => painErrorOut r1 e
    | .ok _ =>
      let n := min (if use_deep then 50 else 30) complaints.length
      let analysis := analyzeComplaints n claudeO
      let r2 := updateWithAnalysis r1 analysis
      let evals := evaluateThresholds
        { weighted_complaint_score := some r2.weighted_complaint_score,
          pain_score := some r2.pain_score,
          quality_metrics := some r2.quality_metrics }
      let mediumR := evals.medium
      let r3 := { r2 with
        threshold_evaluations := some evals,
        kill_decision := !mediumR.passed,
        kill_reason := if mediumR.passed then "" else mediumR.reason }
      match cb "Pain research completed!" with
      | .error e => painErrorOut r3 e
      | .ok _ => r3

/-! ## Market analysis stage runner (`run_analysis`, market_analysis.py 26–181) -/

/-- The `results` dict of `run_analysis`. -/
structure MarketResults where
  problem : String
  competitors_found : Nat
  avg_pricing : AvgPricing
  market_size : String
  gaps : List String
  opportunity_score : Int
  insights : String
  top_competitors : List String
  kill_decision : Bool
  kill_reason : String
  sample_competitors : List Competitor
  high_price_competitors : List (String × ℚ × String)
  error : Option String
deriving Repr

/-- The initial `results` dict of `run_analysis` (lines 45–56). -/
def initMarketResults (problem : String) : MarketResults :=
  { problem := problem, competitors_found := 0,
    avg_pricing := ⟨some 0, some 0, some 0⟩, market_size := "Unknown",
    gaps := [], opportunity_score := 0, insights := "", top_competitors := [],
    kill_decision := true, kill_reason := "", sample_competitors := [],
    high_price_competitors := [], error := none }

/-- `results.update(analysis)` (line 102) for the tracked keys. -/
def updateWithMarketAnalysis (r : MarketResults) (a : MarketAnalysis) :
    MarketResults :=
  { r with
    market_size := a.market_size.getD r.market_size
    avg_pricing := a.avg_pricing.getD r.avg_pricing
    gaps := a.gaps.getD r.gaps
    opportunity_score := a.opportunity_score.getD r.opportunity_score
    insights := a.insights.getD r.insights
    top_competitors := a.top_competitors.getD r.top_competitors }

/-- The high-price competitor summary loop (lines 105–113). -/
def highPriceList (enriched : List Competitor) : List (String × ℚ × String) :=
  enriched.foldl
    (fun acc comp =>
      match comp.pricing with
      | none => acc
      | some p =>
        if p.found && decide ((p.monthly.getD 0) ≥ (MIN_COMPETITOR_PRICE : ℚ)) then
          acc ++ [(comp.name.getD "Unknown", p.monthly.getD 0, comp.link.getD "")]
        else acc)
    []

/-- `_enrich_competitor_data` (lines 231–307): the deep-analysis block's
failures (callback or scraper) are caught and fall back; per competitor, a
missing `name` key or a raising reviews collaborator is caught and the raw
record is kept; otherwise the record gains review data and extracted
pricing.  (`avg_rating` and `competitive_intel`, which nothing
deterministic reads, are not tracked.) -/
def enrichCompetitorData (findall : Findall) (competitors : List Competitor)
    (use_deep firecrawl_key : Bool)
    (firecrawlO : Except String (List Competitor))
    (reviewsO : Nat → Except String (List Review))
    (cb : String → Except String Unit) : List Competitor :=
  let competitors :=
    if use_deep && firecrawl_key then
      match cb "🔥 Scraping competitor websites for detailed analysis..." with
      | .error _ => competitors
      | .ok _ =>
        match firecrawlO with
        | .error _ => competitors
        | .ok scraped => scraped
    else competitors
  (competitors.enum).map (fun ic =>
    let i := ic.1
    let comp := ic.2
    match comp.name with
    | none => comp
    | some _ =>
      match reviewsO i with
      | .error _ => comp
      | .ok reviews =>
        { comp with
          reviews_found := some reviews.length,
          pricing := some (extractPricing findall comp reviews use_deep),
          sample_reviews := some (reviews.take 3) })

/-- `validate_competitor_data` (src/utils/validators.py lines 131–150):
a competitor record is kept iff it has a truthy `name`. -/
def validateCompetitorData (c : Competitor) : Bool := c.name.getD "" != ""

/-- The boundary `except` handler of `run_analysis` (lines 177–179). -/
def marketErrorOut (r : MarketResults) (e : String) : MarketResults :=
  { r with error := some e, kill_reason := "Error during analysis: " ++ e }

/-- `run_analysis` (market_analysis.py lines 26–181).  The competitor
search, market-data search, enrichment and text-generation collaborators
are wrapped in internal handlers; the exceptions that reach the boundary
`except` come from the progress callback or from the decision step's
`results["avg_pricing"]["monthly_average"]` access.  (The market-data
collaborator's result feeds only the external analysis prompt and is not a
model input.) -/
def runAnalysis (problem : String) (findall : Findall)
    (searchO : Except String (List Competitor)) (claudeO : MarketClaudeResp)
    (reviewsO : Nat → Except String (List Review))
    (cb : String → Except String Unit) (use_deep firecrawl_key : Bool)
    (firecrawlO : Except String (List Competitor)) : MarketResults :=
  let r0 := initMarketResults problem
  match cb "Searching for existing solutions and competitors..." with
  | .error e => marketErrorOut r0 e
  | .ok _ =>
    let competitors :=
      match searchO with
      | .ok cs => cs.filter validateCompetitorData
      | .error _ => []
    let r1 := { r0 with competitors_found := competitors.length }
    match cb "Gathering market size and industry data..." with
    | .error e => marketErrorOut r1 e
    | .ok _ =>
      match cb "Analyzing competitor pricing and reviews..." with
      | .error e => marketErrorOut r1 e
      | .ok _ =>
        let enriched := enrichCompetitorData findall (competitors.take 10)
          use_deep firecrawl_key firecrawlO reviewsO cb
        let r2 := { r1 with sample_competitors := enriched.take MAX_DISPLAY_COMPETITORS }
        match cb "Performing comprehensive market analysis..." with
        | .error e => marketErrorOut r2 e
        | .ok _ =>
          let analysis := analyzeMarket claudeO
          let r3 := updateWithMarketAnalysis r2 analysis
          let r4 := { r3 with high_price_competitors := highPriceList enriched }
          match marketKillStep findall analysis enriched with
          | .error e => marketErrorOut r4 e
          | .ok kd =>
            let r5 := { r4 with kill_decision := kd.1, kill_reason := kd.2 }
            match cb "Market analysis completed!" with
            | .error e => marketErrorOut r5 e
            | .ok _ => r5

/-! ## Pipeline navigation state machine (`src/app.py`)

The session state tracked by the UI: the current stage, whether a problem
description has been submitted, which stage result entries exist in
`st.session_state.results`, and the recorded kill verdicts (which the
navigation code never reads). -/

/-- The six pipeline stages (`stage_keys` in `display_progress`). -/
inductive Stage where
  | input | pain_research | market_analysis | content_generation | survey | results
deriving DecidableEq, Repr

/-- The navigation-relevant projection of `st.session_state`. -/
structure Session where
  validation_stage : Stage
  has_problem : Bool
  has_pain : Bool
  has_market : Bool
  has_content : Bool
  has_survey_analysis : Bool
  has_survey_questions : Bool
  pain_kill : Bool
  market_kill : Bool
  content_kill : Bool
  survey_kill : Bool
deriving DecidableEq, Repr

/-- The fresh session of `init_session_state` (app.py lines 53–77). -/
def initSession : Session :=
  ⟨.input, false, false, false, false, false, false, false, false, false, false⟩

/-- The `completed_stages` set of `display_progress` (app.py lines 120–131),
as a membership predicate: `input` is completed iff a problem description
exists; a data stage iff its results entry exists ("survey" via either the
analysis or the generated questions); "results" is never marked completed. -/
def completedStages (s : Session) (t : Stage) : Bool :=
  match t with
  | .input => s.has_problem
  | .pain_research => s.has_pain
  | .market_analysis => s.has_market
  | .content_generation => s.has_content
  | .survey => s.has_survey_analysis || s.has_survey_questions
  | .results => false

/-- The navigation buttons rendered by the current page itself: the
input page's quick-nav row (lines 183–203, shown iff a problem description
exists) and each stage page's top nav row (pain 259–280, market 396–422,
content 465–491, survey 532–557, results 613–638). -/
def pageNavTargets (s : Session) : List Stage :=
  match s.validation_stage with
  | .input =>
    if s.has_problem then
      [.pain_research, .market_analysis, .content_generation, .survey, .results]
    else []
  | .pain_research => [.input, .market_analysis, .results]
  | .market_analysis => [.pain_research, .content_generation, .survey, .results]
  | .content_generation => [.pain_research, .market_analysis, .survey, .results]
  | .survey => [.pain_research, .market_analysis, .content_generation, .results]
  | .results => [.pain_research, .market_analysis, .content_generation, .survey]

/-- The progress-bar navigation of `display_progress` (lines 137–151),
rendered by `main` only when the current stage is not `input`: a clickable
button exists for every completed stage other than the current one. -/
def progressNavButton (s : Session) (t : Stage) : Bool :=
  s.validation_stage != .input && completedStages s t && t != s.validation_stage

/-- A navigation transition from session `s` to stage `t` exists iff some
rendered button switches `validation_stage` to `t`. -/
def navigable (s : Session) (t : Stage) : Bool :=
  progressNavButton s t || (pageNavTargets s).contains t

/-- One UI interaction step.  `nav` presses any rendered navigation button;
`submitInput` is a valid form submission on the input page (sets the
problem and moves to pain research, lines 247–252); `runPain`/`runMarket`/
`runContent` record the stage's results when its page renders (the verdict
bit is arbitrary — kill decisions never gate any transition);
`genSurvey`/`analyzeSurvey` record the survey page's outputs; `restart` is
the "Start New Validation" button (clears the whole session). -/
inductive UIStep : Session → Session → Prop where
  | nav (s : Session) (t : Stage) :
      navigable s t = true → UIStep s { s with validation_stage := t }
  | submitInput (s : Session) :
      s.validation_stage = .input →
      UIStep s { s with has_problem := true, validation_stage := .pain_research }
  | runPain (s : Session) (b : Bool) :
      s.validation_stage = .pain_research →
      UIStep s { s with has_pain := true, pain_kill := b }
  | runMarket (s : Session) (b : Bool) :
      s.validation_stage = .market_analysis →
      UIStep s { s with has_market := true, market_kill := b }
  | runContent (s : Session) (b : Bool) :
      s.validation_stage = .content_generation →
      UIStep s { s with has_content := true, content_kill := b }
  | genSurvey (s : Session) :
      s.validation_stage = .survey →
      UIStep s { s with has_survey_questions := true }
  | analyzeSurvey (s : Session) (b : Bool) :
      s.validation_stage = .survey →
      UIStep s { s with has_survey_analysis := true, survey_kill := b }
  | restart (s : Session) : UIStep s initSession

/-- Sessions reachable from a fresh session through UI interactions. -/
inductive ReachableSession : Session → Prop where
  | init : ReachableSession initSession
  | step {s s' : Session} :
      ReachableSession s → UIStep s s' → ReachableSession s'

/-- `s` with the four recorded kill verdicts replaced. -/
def withKills (s : Session) (pk mk ck sk : Bool) : Session :=
  { s with pain_kill := pk, market_kill := mk, content_kill := ck,
           survey_kill := sk }

/-! ## Spec-side definitions

These follow the specification's words (not the source) and exist to be
compared against the embedded code: an ordered gate table with a generic
"unmet criteria" reading (spec §4.1 step 5, §9), and a generic first-match
rule runner (spec §4.4). -/

/-- One gate of a threshold profile: whether it failed, and its
human-readable unmet-criterion string. -/
structure GateCheck where
  failed : Bool
  message : String
deriving DecidableEq, Repr

/-- The unmet-criterion list of an ordered gate table: one message per
failed gate, in table order. -/
def unmetOf (gs : List GateCheck) : List String :=
  (gs.filter (fun g => g.failed)).map (fun g => g.message)

/-- The easy profile's gates, in the source's order. -/
def easyGateTable (cE pE ws ps : Int) : List GateCheck :=
  [⟨decide (ws < cE), s!"Weighted complaints: {ws}/{cE}"⟩,
   ⟨decide (ps < pE), s!"Pain score: {ps}/{pE}"⟩]

/-- The medium profile's gates, in the source's order. -/
def mediumGateTable (cM pM ws ps : Int) (qr : String) : List GateCheck :=
  [⟨decide (ws < cM), s!"Weighted complaints: {ws}/{cM}"⟩,
   ⟨decide (ps < pM), s!"Pain score: {ps}/{pM}"⟩,
   ⟨!(qr == "medium" || qr == "high"), s!"Quality: {qr} (need medium+)"⟩]

/-- The difficult profile's gates, in the source's order:
complaints, pain, urgency, emotional, quality. -/
def difficultGateTable (cD pD uT eT ws ps : Int) (qr : String) (u e : Int) :
    List GateCheck :=
  [⟨decide (ws < cD), s!"Weighted complaints: {ws}/{cD}"⟩,
   ⟨decide (ps < pD), s!"Pain score: {ps}/{pD}"⟩,
   ⟨decide (u < uT), s!"Urgency: {u}%/{uT}%"⟩,
   ⟨decide (e < eT), s!"Emotional: {e}%/{eT}%"⟩,
   ⟨!(qr == "high"), s!"Quality: {qr} (need high)"⟩]

/-- The difficult profile's gates in the order the specification asserts
for every level (complaints, pain score, quality, urgency, emotional). -/
def specOrderDifficultGateTable (cD pD uT eT ws ps : Int) (qr : String)
    (u e : Int) : List GateCheck :=
  [⟨decide (ws < cD), s!"Weighted complaints: {ws}/{cD}"⟩,
   ⟨decide (ps < pD), s!"Pain score: {ps}/{pD}"⟩,
   ⟨!(qr == "high"), s!"Quality: {qr} (need high)"⟩,
   ⟨decide (u < uT), s!"Urgency: {u}%/{uT}%"⟩,
   ⟨decide (e < eT), s!"Emotional: {e}%/{eT}%"⟩]

/-- The spec's generic first-match rule runner (§4.4): the first true
predicate produces the kill decision and reason; otherwise pass. -/
def firstMatchRules (rules : List (Bool × String)) : Bool × String :=
  match rules.find? (fun r => r.1) with
  | some r => (true, r.2)
  | none => (false, "")

/-! ## Claim theorems -/

/-- **C3.** For each of the three threshold levels and any fixed metrics,
raising that level's `complaints_required` or `pain_score_required` never
turns a failing evaluation into a passing one. -/
theorem c3_threshold_monotone (m : PainMetrics)
    (cE pE cM pM cD pD uT eT c p c' p' : Int)
    (hc : c ≤ c') (hp : p ≤ p') :
    ((evaluateThresholdsWith c p cM pM cD pD uT eT m).easy.passed = false →
      (evaluateThresholdsWith c' p' cM pM cD pD uT eT m).easy.passed = false) ∧
    ((evaluateThresholdsWith cE pE c p cD pD uT eT m).medium.passed = false →
      (evaluateThresholdsWith cE pE c' p' cD pD uT eT m).medium.passed = false) ∧
    ((evaluateThresholdsWith cE pE cM pM c p uT eT m).difficult.passed = false →
      (evaluateThresholdsWith cE pE cM pM c' p' uT eT m).difficult.passed = false) := by
  refine ⟨?_, ?_, ?_⟩ <;>
  · intro hfail
    by_contra hpass
    rw [Bool.not_eq_false] at hpass
    rw [← Bool.not_eq_true] at hfail
    apply hfail
    simp only [evaluateThresholdsWith] at hpass ⊢
    split at hpass <;> simp_all
    split <;> simp_all
    omega

/-- **C3 witness.** Concrete instantiation: metrics failing the easy level
at thresholds (20, 5) still fail at the raised thresholds (30, 6), and
likewise for the other two levels. -/
theorem c3_threshold_monotone_witness :
    ((evaluateThresholdsWith 20 5 40 6 60 8 40 30
        ⟨some 10, some 3, none⟩).easy.passed = false →
      (evaluateThresholdsWith 30 6 40 6 60 8 40 30
        ⟨some 10, some 3, none⟩).easy.passed = false) ∧
    ((evaluateThresholdsWith 20 5 20 5 60 8 40 30
        ⟨some 10, some 3, none⟩).medium.passed = false →
      (evaluateThresholdsWith 20 5 30 6 60 8 40 30
        ⟨some 10, some 3, none⟩).medium.passed = false) ∧
    ((evaluateThresholdsWith 20 5 40 6 20 5 40 30
        ⟨some 10, some 3, none⟩).difficult.passed = false →
      (evaluateThresholdsWith 20 5 40 6 30 6 40 30
        ⟨some 10, some 3, none⟩).difficult.passed = false) :=
  c3_threshold_monotone ⟨some 10, some 3, none⟩ 20 5 40 6 60 8 40 30
    20 5 30 6 (by decide) (by decide)

/-- **C5 counterexample.** At weighted score 100, pain 9, quality "low",
urgency 0, emotional 0, the difficult level fails on urgency, emotional and
quality; the evaluator's reason lists those gates in the order urgency,
emotional, quality — not in the claimed order (quality before urgency and
emotional). -/
theorem c5_reason_order_counterexample :
    (evaluateThresholds
      ⟨some 100, some 9, some ⟨none, some 0, some 0, some "low"⟩⟩).difficult.passed
        = false ∧
    (evaluateThresholds
      ⟨some 100, some 9, some ⟨none, some 0, some 0, some "low"⟩⟩).difficult.reason
        = "Urgency: 0%/40% | Emotional: 0%/30% | Quality: low (need high)" ∧
    unmetOf (specOrderDifficultGateTable 60 8 40 30 100 9 "low" 0 0)
        = ["Quality: low (need high)", "Urgency: 0%/40%", "Emotional: 0%/30%"] ∧
    difficultReasons 60 8 40 30 100 9 "low" 0 0
        ≠ unmetOf (specOrderDifficultGateTable 60 8 40 30 100 9 "low" 0 0) := by
  refine ⟨by decide, by decide, by decide, by decide⟩

/-- **C5 amended.** Every failing evaluation's unmet-criterion list has
exactly one entry per failed gate (each stating actual vs. required value),
ordered complaints, pain score, quality for the easy and medium levels, and
ordered complaints, pain score, urgency, emotional, quality for the
difficult level: each reason list equals the ordered-filter reading of the
corresponding gate table. -/
theorem c5_reason_lists_amended (cE pE cM pM cD pD uT eT ws ps u e : Int)
    (qr : String) :
    easyReasons cE pE ws ps = unmetOf (easyGateTable cE pE ws ps) ∧
    mediumReasons cM pM ws ps qr = unmetOf (mediumGateTable cM pM ws ps qr) ∧
    difficultReasons cD pD uT eT ws ps qr u e
      = unmetOf (difficultGateTable cD pD uT eT ws ps qr u e) := by
  refine ⟨?_, ?_, ?_⟩
  · simp only [easyReasons, easyGateTable, unmetOf, List.filter, List.map]
    by_cases h1 : ws < cE <;> by_cases h2 : ps < pE <;> simp [h1, h2]
  · simp only [mediumReasons, mediumGateTable, unmetOf, List.filter, List.map]
    by_cases h1 : ws < cM <;> by_cases h2 : ps < pM <;>
      by_cases h3 : (qr == "medium" || qr == "high") = true <;> simp [h1, h2, h3]
  · simp only [difficultReasons, difficultGateTable, unmetOf, List.filter, List.map]
    by_cases h1 : ws < cD <;> by_cases h2 : ps < pD <;> by_cases h3 : u < uT <;>
      by_cases h4 : e < eT <;> by_cases h5 : (qr == "high") = true <;>
        simp [h1, h2, h3, h4, h5, not_lt]

/-- **C6 counterexample.** For the breakdown `{tier3:2, tier2:8, tier1:20}`
the `3·t3 + 2·t2 + 1·t1` derivation gives 42, not the claimed 38; with the
derived score 42 the medium complaints gate (40) passes, so the failing
medium evaluation (pain 4, quality "low") does not cite "38/40". -/
theorem c6_scenario_b_counterexample :
    weightedScoreOf ⟨some 2, some 8, some 20, some 0, some 30⟩ = 42 ∧
    weightedScoreOf ⟨some 2, some 8, some 20, some 0, some 30⟩ ≠ 38 ∧
    (evaluateThresholds
      ⟨some (weightedScoreOf ⟨some 2, some 8, some 20, some 0, some 30⟩), some 4,
        some ⟨none, none, none, some "low"⟩⟩).medium.passed = false ∧
    strContains
      (evaluateThresholds
        ⟨some (weightedScoreOf ⟨some 2, some 8, some 20, some 0, some 30⟩), some 4,
          some ⟨none, none, none, some "low"⟩⟩).medium.reason "38/40" = false := by
  refine ⟨by decide, by decide, by decide, by decide⟩

/-- **C6 amended.** For the breakdown `{tier3:2, tier2:8, tier1:20}` with
pain 4 and quality "low", the formula-derived weighted score is 42 and the
medium evaluation fails with reason "Pain score: 4/6 | Quality: low (need
medium+)"; the reason cites "38/40" only when the external analysis
supplies the weighted score 38 directly (as the repository's own test mock
does), since the evaluator uses the supplied value. -/
theorem c6_scenario_b_amended :
    weightedScoreOf ⟨some 2, some 8, some 20, some 0, some 30⟩ = 42 ∧
    (evaluateThresholds
      ⟨some 42, some 4, some ⟨none, none, none, some "low"⟩⟩).medium.passed = false ∧
    (evaluateThresholds
      ⟨some 42, some 4, some ⟨none, none, none, some "low"⟩⟩).medium.reason
        = "Pain score: 4/6 | Quality: low (need medium+)" ∧
    (evaluateThresholds
      ⟨some 38, some 4, some ⟨none, none, none, some "low"⟩⟩).medium.reason
        = "Weighted complaints: 38/40 | Pain score: 4/6 | Quality: low (need medium+)" ∧
    strContains
      (evaluateThresholds
        ⟨some 38, some 4, some ⟨none, none, none, some "low"⟩⟩).medium.reason "38/40"
        = true := by
  refine ⟨by decide, by decide, by decide, by decide, by decide⟩

/-- Metrics with every missing field replaced by the evaluator's documented
default (zero for the numeric fields, `"low"` for the quality rating). -/
def defaultedPainMetrics (m : PainMetrics) : PainMetrics :=
  let qm := m.quality_metrics.getD emptyQualityMetrics
  { weighted_complaint_score := some (m.weighted_complaint_score.getD 0)
    pain_score := some (m.pain_score.getD 0)
    quality_metrics := some
      { quality_score := qm.quality_score
        urgency_percentage := some (qm.urgency_percentage.getD 0)
        emotional_intensity_percentage :=
          some (qm.emotional_intensity_percentage.getD 0)
        quality_rating := some (qm.quality_rating.getD "low") } }

theorem scanMatchesForHigh_count_le (name : String) (ms : List (List String))
    (found : Bool) (cnt : ℚ) (strs : List String) :
    cnt ≤ (scanMatchesForHigh name ms found cnt strs).2.1 := by
  induction ms with
  | nil => simp [scanMatchesForHigh]
  | cons g rest ih =>
    simp only [scanMatchesForHigh]
    split
    · show cnt ≤ cnt + 1
      linarith
    · split
      · exact le_refl cnt
      · exact ih

theorem scanPatternsForHigh_count_le (findall : Findall) (text name : String)
    (pats : List String) :
    ∀ (found : Bool) (cnt : ℚ) (strs : List String),
      cnt ≤ (scanPatternsForHigh findall text name pats found cnt strs).2.1 := by
  induction pats with
  | nil => intro found cnt strs; simp [scanPatternsForHigh]
  | cons pat rest ih =>
    intro found cnt strs
    simp only [scanPatternsForHigh]
    exact le_trans (scanMatchesForHigh_count_le name (findall pat text) found cnt strs)
      (ih _ _ _)

theorem countStep12Step_count_le (findall : Findall) (acc : ℚ × List String)
    (comp : Competitor) :
    acc.1 ≤ (countStep12Step findall acc comp).1 := by
  unfold countStep12Step
  dsimp only
  split
  · split
    · show acc.1 ≤ acc.1 + 1
      linarith
    · exact le_refl _
  · split
    · split
      · refine le_trans
          (scanPatternsForHigh_count_le findall
            (comp.description.getD "" ++ " " ++ comp.title.getD "")
            (comp.name.getD "Unknown") price_patterns false acc.1 acc.2) ?_
        dsimp only
        linarith
      · exact scanPatternsForHigh_count_le findall
          (comp.description.getD "" ++ " " ++ comp.title.getD "")
          (comp.name.getD "Unknown") price_patterns false acc.1 acc.2
    · exact le_refl _

theorem countStep12_nonneg (findall : Findall) (comps : List Competitor) :
    0 ≤ (countStep12 findall comps).1 := by
  unfold countStep12
  have h : ∀ (l : List Competitor) (acc : ℚ × List String),
      acc.1 ≤ (l.foldl (countStep12Step findall) acc).1 := by
    intro l
    induction l with
    | nil => intro acc; simp
    | cons comp rest ih =>
      intro acc
      rw [List.foldl_cons]
      exact le_trans (countStep12Step_count_le findall acc comp) (ih _)
  simpa using h comps (0, [])

theorem countStep3Step_le (strs : List String) (c : ℚ) (comp : Competitor) :
    c ≤ countStep3Step strs c comp := by
  unfold countStep3Step
  dsimp only
  split
  · exact le_refl c
  · split
    · linarith
    · exact le_refl c

theorem countStep3_le (comps : List Competitor) (count : ℚ)
    (strs : List String) : count ≤ countStep3 comps count strs := by
  unfold countStep3
  split
  · have h : ∀ (l : List Competitor) (c : ℚ),
        c ≤ l.foldl (countStep3Step strs) c := by
      intro l
      induction l with
      | nil => intro c; simp
      | cons comp rest ih =>
        intro c
        rw [List.foldl_cons]
        exact le_trans (countStep3Step_le strs c comp) (ih _)
    exact h comps count
  · exact le_refl count

theorem extractPricing_found_iff_monthly (findall : Findall) (comp : Competitor)
    (reviews : List Review) (use_deep : Bool) :
    (extractPricing findall comp reviews use_deep).monthly.isSome
      = (extractPricing findall comp reviews use_deep).found := by
  unfold extractPricing
  rcases h : firstPatternPrice findall (allTextFor comp reviews use_deep)
      monthly_patterns with _ | q
  · simp only [h]
    split
    · rcases h2 : fallbackScan (findall simple_pattern
          (allTextFor comp reviews use_deep)) with _ | q2 <;> simp [h2]
    · simp
  · simp [h]

/-- **C7.** The deterministic core functions are total over defaulted
inputs: the evaluator returns evaluations for exactly the three levels (in
order), treats missing metric fields as zero / lowest ordinal, the pricing
extractor always returns a record whose `monthly` price is present exactly
when `found` holds, and the competitor counter always returns a
non-negative integer. -/
theorem c7_core_totality :
    (∀ m : PainMetrics,
      (evaluationsToList (evaluateThresholds m)).map Prod.fst
        = ["easy", "medium", "difficult"]) ∧
    (∀ m : PainMetrics,
      evaluateThresholds m = evaluateThresholds (defaultedPainMetrics m)) ∧
    (∀ (findall : Findall) (comp : Competitor) (reviews : List Review)
        (use_deep : Bool),
      (extractPricing findall comp reviews use_deep).monthly.isSome
        = (extractPricing findall comp reviews use_deep).found) ∧
    (∀ (findall : Findall) (comps : List Competitor),
      0 ≤ countPayingCompetitors findall comps) := by
  refine ⟨fun m => rfl, fun m => rfl, extractPricing_found_iff_monthly, ?_⟩
  intro findall comps
  unfold countPayingCompetitors
  have h1 := countStep12_nonneg findall comps
  have h2 := countStep3_le comps (countStep12 findall comps).1
    (countStep12 findall comps).2
  exact Int.le_floor.mpr (by push_cast; linarith)

/-- **C1 counterexample.** A run in which the external analysis supplies a
breakdown `{tier3:5, tier2:0, tier1:0}` but omits the weighted-score field:
the substituted default (the raw evidence count, here 0) is the score the
threshold evaluator consumes, while the formula over the consumed breakdown
gives 15 — the claimed identity fails, including for the substituted
default. -/
theorem c1_weighted_passthrough_counterexample :
    (runResearch "p" (.ok [])
      (.ok { pain_score := some 6, themes := some [], key_quotes := some [],
             is_urgent_problem := some false, analysis_summary := some "s",
             complaint_breakdown := some ⟨some 5, some 0, some 0, some 0, some 5⟩,
             weighted_complaint_score := none,
             quality_metrics := some ⟨some (1/2), some 10, some 10, some "low"⟩,
             high_impact_quotes := none })
      (fun _ => .ok ()) false false false (.ok [])).weighted_complaint_score = 0 ∧
    weightedScoreOf (runResearch "p" (.ok [])
      (.ok { pain_score := some 6, themes := some [], key_quotes := some [],
             is_urgent_problem := some false, analysis_summary := some "s",
             complaint_breakdown := some ⟨some 5, some 0, some 0, some 0, some 5⟩,
             weighted_complaint_score := none,
             quality_metrics := some ⟨some (1/2), some 10, some 10, some "low"⟩,
             high_impact_quotes := none })
      (fun _ => .ok ()) false false false (.ok [])).complaint_breakdown = 15 ∧
    (0 : Int) ≠ 15 := by
  refine ⟨by decide, by decide, by decide⟩

/-- **C1 amended.** The weighted complaint score consumed by the threshold
evaluator is the externally supplied value, passed through unchecked; only
when the external analysis omits *both* the weighted-score field and the
breakdown do the substituted defaults (score = number of analyzed items,
all-tier-1 breakdown) satisfy `weighted = 3·t3 + 2·t2 + 1·t1`. -/
theorem c1_default_weighted_score_amended (n : Nat) (a : Analysis) :
    (a.weighted_complaint_score = none → a.complaint_breakdown = none →
      (normalizeAnalysis n a).weighted_complaint_score.getD 0
        = weightedScoreOf ((normalizeAnalysis n a).complaint_breakdown.getD
            emptyBreakdown) ∧
      (normalizeAnalysis n a).weighted_complaint_score.getD 0 = (n : Int)) ∧
    (∀ w : Int, a.weighted_complaint_score = some w →
      (normalizeAnalysis n a).weighted_complaint_score = some w) := by
  constructor
  · intro hw hb
    simp [normalizeAnalysis, hw, hb, weightedScoreOf]
  · intro w hw
    simp [normalizeAnalysis, hw]

/-- **C1 witness.** The amended statement at `n = 7` and the fully-absent
analysis: the defaults give weighted score 7 = 3·0 + 2·0 + 1·7, and a
supplied score 9 is passed through. -/
theorem c1_default_weighted_score_amended_witness :
    ((normalizeAnalysis 7 ⟨none, none, none, none, none, none, none, none, none⟩).weighted_complaint_score.getD 0
        = weightedScoreOf ((normalizeAnalysis 7
            ⟨none, none, none, none, none, none, none, none, none⟩).complaint_breakdown.getD
              emptyBreakdown) ∧
      (normalizeAnalysis 7
        ⟨none, none, none, none, none, none, none, none, none⟩).weighted_complaint_score.getD 0
          = (7 : Int)) ∧
    (normalizeAnalysis 7
      ⟨none, none, none, none, none, none, some 9, none, none⟩).weighted_complaint_score
        = some 9 :=
  ⟨(c1_default_weighted_score_amended 7
      ⟨none, none, none, none, none, none, none, none, none⟩).1 rfl rfl,
   (c1_default_weighted_score_amended 7
      ⟨none, none, none, none, none, none, some 9, none, none⟩).2 9 rfl⟩

/-- Every price the pattern cascade returns lies in the plausibility band. -/
theorem firstPatternPrice_band (findall : Findall) (text : String) :
    ∀ (pats : List (String × Nat)) (q : ℚ),
      firstPatternPrice findall text pats = some q → 5 ≤ q ∧ q ≤ 10000 := by
  intro pats
  induction pats with
  | nil => intro q h; simp [firstPatternPrice] at h
  | cons hd tl ih =>
    intro q h
    obtain ⟨pat, g⟩ := hd
    rw [firstPatternPrice] at h
    rcases h1 : (findall pat text).head? with _ | groups
    · rw [h1] at h
      exact ih q h
    · rw [h1] at h
      dsimp only at h
      rcases h2 : parsePrice (extractGroup groups g) with _ | price
      · rw [h2] at h
        exact ih q h
      · rw [h2] at h
        dsimp only at h
        by_cases h3 : 5 ≤ price ∧ price ≤ 10000
        · rw [if_pos h3] at h
          cases h
          exact h3
        · rw [if_neg h3] at h
          exact ih q h

/-- Every price the bare-dollar fallback scan returns lies in the
plausibility band. -/
theorem fallbackScan_band :
    ∀ (ms : List (List String)) (q : ℚ),
      fallbackScan ms = some q → 5 ≤ q ∧ q ≤ 10000 := by
  intro ms
  induction ms with
  | nil => intro q h; simp [fallbackScan] at h
  | cons groups rest ih =>
    intro q h
    rw [fallbackScan] at h
    rcases h2 : parsePrice (groups.getD 0 "") with _ | price
    · rw [h2] at h
      exact ih q h
    · rw [h2] at h
      dsimp only at h
      by_cases h3 : 5 ≤ price ∧ price ≤ 10000
      · rw [if_pos h3] at h
        cases h
        exact h3
      · rw [if_neg h3] at h
        exact ih q h

/-- **C4.** The pricing extractor never returns `found = true` with a
monthly price outside the plausibility band `[5, 10000]`, on any text, any
match oracle, and on both the pattern cascade and the estimated fallback
path. -/
theorem c4_price_band (findall : Findall) (comp : Competitor)
    (reviews : List Review) (use_deep : Bool)
    (h : (extractPricing findall comp reviews use_deep).found = true) :
    ∃ q, (extractPricing findall comp reviews use_deep).monthly = some q ∧
      5 ≤ q ∧ q ≤ 10000 := by
  unfold extractPricing at h ⊢
  dsimp only at h ⊢
  rcases h1 : firstPatternPrice findall (allTextFor comp reviews use_deep)
      monthly_patterns with _ | q
  · rw [h1] at h
    dsimp only at h ⊢
    by_cases hm : comp.pricing_mentioned.getD false = true
    · rw [if_pos hm] at h ⊢
      rcases h2 : fallbackScan (findall simple_pattern
          (allTextFor comp reviews use_deep)) with _ | q2
      · rw [h2] at h
        dsimp only at h
        exact absurd h (by simp)
      · rw [h2] at h
        dsimp only at h ⊢
        exact ⟨q2, rfl, fallbackScan_band _ q2 h2⟩
    · rw [if_neg hm] at h
      dsimp only at h
      exact absurd h (by simp)
  · rw [h1] at h
    dsimp only at h ⊢
    exact ⟨q, rfl, firstPatternPrice_band findall _ monthly_patterns q h1⟩


/-- The competitor text of the C4 witness (spec Scenario C). -/
def c4Text : String := "Plans from $79/mo, enterprise pricing available"

/-- The `re.findall` results on `c4Text`: patterns `\$X/mo`, `from \$X` and
`plans from \$X` each match "79"; no other monthly pattern matches. -/
def c4Findall : Findall := fun pat _ =>
  if pat = "\\$(\\d+(?:\\.\\d+)?)/mo" ∨ pat = "from\\s*\\$(\\d+(?:\\.\\d+)?)" ∨
      pat = "plans\\s*from\\s*\\$(\\d+(?:\\.\\d+)?)" then [["79"]]
  else []

def c4Comp : Competitor := { emptyCompetitor with description := some c4Text }

/-- **C4 witness.** On the Scenario C text the extractor returns
`found = true` at price 79, and the theorem places 79 inside the band. -/
theorem c4_price_band_witness :
    (extractPricing c4Findall c4Comp [] false).found = true ∧
    (∃ q, (extractPricing c4Findall c4Comp [] false).monthly = some q ∧
      5 ≤ q ∧ q ≤ 10000) :=
  ⟨by decide, c4_price_band c4Findall c4Comp [] false (by decide)⟩

/-- The input text of the C10 theorem. -/
def c10Text : String := "$20000 per month or $30 per month"

/-- The `re.findall` results on `c10Text`: the first monthly pattern
(`\$X per month`) and the last (`\$X for/per`) each match twice, first
"20000" (implausible) then "30" (plausible); no other pattern matches. -/
def c10Findall : Findall := fun pat _ =>
  if pat = "\\$(\\d+(?:\\.\\d+)?)\\s*(?:per\\s*)?month" ∨
      pat = "\\$(\\d+(?:\\.\\d+)?)\\s*(?:for|per)" then [["20000"], ["30"]]
  else []

/-- As `c10Findall` but with every occurrence after the first replaced by a
different (plausible) price: the two oracles agree on first occurrences. -/
def c10FindallAlt : Findall := fun pat _ =>
  if pat = "\\$(\\d+(?:\\.\\d+)?)\\s*(?:per\\s*)?month" ∨
      pat = "\\$(\\d+(?:\\.\\d+)?)\\s*(?:for|per)" then [["20000"], ["7777"]]
  else []

def c10Comp : Competitor := { emptyCompetitor with description := some c10Text }

/-- **C10.** The pattern cascade examines only the first occurrence per
pattern: its result depends only on each pattern's first match (any two
oracles agreeing on first matches yield the same result), and on
`c10Text` — whose first pattern also matches the plausible price 30 at a
later occurrence — the extractor returns `found = false` because each first
occurrence (20000) is outside the band. -/
theorem c10_first_occurrence_only :
    (∀ (f₁ f₂ : Findall) (text : String) (pats : List (String × Nat)),
      (∀ pg ∈ pats, (f₁ pg.1 text).head? = (f₂ pg.1 text).head?) →
      firstPatternPrice f₁ text pats = firstPatternPrice f₂ text pats) ∧
    (extractPricing c10Findall c10Comp [] false).found = false ∧
    ((c10Findall "\\$(\\d+(?:\\.\\d+)?)\\s*(?:per\\s*)?month" c10Text).map
      (fun g => parsePrice (g.getD 0 ""))).contains (some 30) = true ∧
    ((5 : ℚ) ≤ 30 ∧ (30 : ℚ) ≤ 10000) := by
  refine ⟨?_, by decide, by decide, by decide⟩
  intro f₁ f₂ text pats
  induction pats with
  | nil => intro _; rfl
  | cons hd tl ih =>
    intro hagree
    obtain ⟨pat, g⟩ := hd
    have hh : (f₁ pat text).head? = (f₂ pat text).head? :=
      hagree (pat, g) (List.mem_cons_self _ _)
    have htl := fun pg hm => hagree pg (List.mem_cons_of_mem _ hm)
    simp only [firstPatternPrice]
    rw [hh]
    rcases hx : (f₂ pat text).head? with _ | groups
    · exact ih htl
    · dsimp only
      rcases hp : parsePrice (extractGroup groups g) with _ | price
      · exact ih htl
      · dsimp only
        split
        · rfl
        · exact ih htl

/-- **C10 witness.** The head-dependence part applied to the two concrete
oracles (which differ in every later occurrence): the cascade's result is
identical. -/
theorem c10_first_occurrence_only_witness :
    firstPatternPrice c10Findall c10Text monthly_patterns
      = firstPatternPrice c10FindallAlt c10Text monthly_patterns :=
  c10_first_occurrence_only.1 c10Findall c10FindallAlt c10Text monthly_patterns
    (by decide)

/-- A match oracle that finds nothing anywhere (the empty texts of the
C2 inputs have no matches). -/
def c2Findall : Findall := fun _ _ => []

/-- An external market analysis reporting average monthly price 100 and
opportunity 8, with no top-competitor list. -/
def c2Analysis : MarketAnalysis :=
  { market_size := none, avg_pricing := some ⟨some 0, some 0, some 100⟩,
    gaps := none, opportunity_score := some 8, insights := none,
    top_competitors := none }

/-- Three enriched competitor records with no pricing data at all. -/
def c2Comps : List Competitor := [emptyCompetitor, emptyCompetitor, emptyCompetitor]

def c2Paying : Int := 3
def c2Avg : ℚ := 100
def c2Opp : Int := 8

/-- **C2 counterexample.** On `c2Analysis`/`c2Comps` the Competitor
Counter's count is 0 (< 3), yet the stage passes with an empty reason: the
reported average price bumps the analysis-derived count to 3, and the gate
compares `max(3, 0) = 3` — the Counter's count does not decide rule (1) as
claimed. -/
theorem c2_counter_gate_counterexample :
    countPayingCompetitors c2Findall c2Comps = 0 ∧
    countPayingCompetitors c2Findall c2Comps < 3 ∧
    marketKillStep c2Findall c2Analysis c2Comps = .ok (false, "") := by
  refine ⟨by decide, by decide, ?_⟩
  rfl

/-- **C2 amended.** The kill decision and reason of the market-analysis
stage are first-match evaluation of the ordered rules — count below 3,
average price below the minimum, opportunity below 6, else pass — where
the count is not the Competitor Counter's count alone but
`payingCompetitorCount`: the maximum of the analysis-derived count (with
its average-price bump) and the Counter's count.  Stated for analyses whose
`avg_pricing` dict carries `monthly_average` (otherwise the decision step
raises a `KeyError`). -/
theorem c2_first_match_rules_amended (findall : Findall) (a : MarketAnalysis)
    (comps : List Competitor) (ap : AvgPricing) (v : ℚ) (P opp : Int)
    (h1 : a.avg_pricing = some ap) (h2 : ap.monthly_average = some v)
    (hP : P = payingCompetitorCount findall a comps)
    (hopp : opp = a.opportunity_score.getD 0) :
    marketKillStep findall a comps =
      .ok (firstMatchRules
        [(decide (P < 3),
          s!"Only {P} competitors charging ${MIN_COMPETITOR_PRICE}+/month found"),
         (decide (v < (MIN_COMPETITOR_PRICE : ℚ)),
          s!"Average market pricing ${v} is below ${MIN_COMPETITOR_PRICE} threshold"),
         (decide (opp < 6),
          s!"Low market opportunity score: {opp}/10")]) := by
  subst hP hopp
  unfold marketKillStep firstMatchRules
  dsimp only
  by_cases hp3 : payingCompetitorCount findall a comps < 3
  · rw [if_pos hp3]
    simp [List.find?, hp3]
  · rw [if_neg hp3, h1]
    dsimp only
    rw [h2]
    dsimp only
    by_cases hv : v < (MIN_COMPETITOR_PRICE : ℚ)
    · rw [if_pos hv]
      simp [List.find?, hp3, hv]
    · rw [if_neg hv]
      by_cases ho : a.opportunity_score.getD 0 < 6
      · rw [if_pos ho]
        simp [List.find?, hp3, hv, ho]
      · rw [if_neg ho]
        simp [List.find?, hp3, hv, ho]

/-- **C2 amended witness.** The amended rule-table reading at the concrete
C2 inputs: count 3, average 100, opportunity 8 — no rule fires, the stage
passes. -/
theorem c2_first_match_rules_amended_witness :
    marketKillStep c2Findall c2Analysis c2Comps =
      .ok (firstMatchRules
        [(decide (c2Paying < 3),
          s!"Only {c2Paying} competitors charging ${MIN_COMPETITOR_PRICE}+/month found"),
         (decide (c2Avg < (MIN_COMPETITOR_PRICE : ℚ)),
          s!"Average market pricing ${c2Avg} is below ${MIN_COMPETITOR_PRICE} threshold"),
         (decide (c2Opp < 6),
          s!"Low market opportunity score: {c2Opp}/10")]) :=
  c2_first_match_rules_amended c2Findall c2Analysis c2Comps
    ⟨some 0, some 0, some 100⟩ c2Avg c2Paying c2Opp rfl rfl (by decide) rfl

/-- Every `run_research` outcome is either an error-path result (the
boundary handler applied to the partial results at the raise point) or an
error-free result. -/
theorem runResearch_error_shape (problem : String)
    (searchO : Except String (List Complaint)) (claudeO : ClaudeResp)
    (cb : String → Except String Unit) (uai ud fk : Bool)
    (fO : Except String (List Complaint)) :
    (∃ r e, runResearch problem searchO claudeO cb uai ud fk fO
        = painErrorOut r e) ∨
    (runResearch problem searchO claudeO cb uai ud fk fO).error = none := by
  unfold runResearch
  dsimp only
  generalize (if uai = true then "🤖 Generating AI-optimized search queries..."
    else "Searching for complaints across platforms...") = msg1
  split
  · exact Or.inl ⟨_, _, rfl⟩
  · split
    · exact Or.inl ⟨_, _, rfl⟩
    · split
      · exact Or.inl ⟨_, _, rfl⟩
      · right
        simp [initPainResults, updateWithAnalysis]

/-- Every `run_analysis` outcome is either an error-path result or an
error-free result. -/
theorem runAnalysis_error_shape (problem : String) (findall : Findall)
    (searchO : Except String (List Competitor)) (claudeO : MarketClaudeResp)
    (reviewsO : Nat → Except String (List Review))
    (cb : String → Except String Unit) (ud fk : Bool)
    (fO : Except String (List Competitor)) :
    (∃ r e, runAnalysis problem findall searchO claudeO reviewsO cb ud fk fO
        = marketErrorOut r e) ∨
    (runAnalysis problem findall searchO claudeO reviewsO cb ud fk fO).error
        = none := by
  unfold runAnalysis
  dsimp only
  split
  · exact Or.inl ⟨_, _, rfl⟩
  · split
    · exact Or.inl ⟨_, _, rfl⟩
    · split
      · exact Or.inl ⟨_, _, rfl⟩
      · split
        · exact Or.inl ⟨_, _, rfl⟩
        · split
          · exact Or.inl ⟨_, _, rfl⟩
          · split
            · exact Or.inl ⟨_, _, rfl⟩
            · right
              simp [initMarketResults, updateWithMarketAnalysis]

/-- The analysis of the C8 counterexample: weighted score 50, pain 7,
quality "medium" — the medium threshold passes. -/
def c8Analysis : Analysis :=
  { pain_score := some 7, themes := some [], key_quotes := some [],
    is_urgent_problem := some false, analysis_summary := some "ok",
    complaint_breakdown := some ⟨some 10, some 5, some 5, some 0, some 20⟩,
    weighted_complaint_score := some 50,
    quality_metrics := some ⟨some (1/2), some 50, some 40, some "medium"⟩,
    high_impact_quotes := none }

/-- A progress callback that raises only on the final completion message. -/
def c8Cb : String → Except String Unit := fun m =>
  if m = "Pain research completed!" then .error "boom" else .ok ()

/-- **C8 counterexample.** When the progress callback (a collaborator call)
raises on the final message — after the stage has recorded a passing medium
evaluation — the exception is caught at the boundary and the error reason is
set, but the returned results have `kill_decision = false`, not `true` as
claimed. -/
theorem c8_boundary_kill_counterexample :
    (runResearch "p" (.ok []) (.ok c8Analysis) c8Cb false false false
      (.ok [])).error = some "boom" ∧
    (runResearch "p" (.ok []) (.ok c8Analysis) c8Cb false false false
      (.ok [])).kill_reason = "Error during research: boom" ∧
    (runResearch "p" (.ok []) (.ok c8Analysis) c8Cb false false false
      (.ok [])).kill_decision = false := by
  refine ⟨by decide, by decide, by decide⟩

/-- **C8 amended.** An exception that reaches a stage boundary is caught
there: the stage still returns its (partial) results dictionary and the
kill reason has the form `"Error during <stage>: <message>"`; the kill
decision keeps the value it had when the exception was raised — `true` in
every case except a raise occurring after the stage already recorded a
passing decision.  (Search and text-generation collaborator raises are
handled inside the stages with defaults and never reach the boundary.) -/
theorem c8_boundary_error_reason_amended :
    (∀ (problem : String) (searchO : Except String (List Complaint))
        (claudeO : ClaudeResp) (cb : String → Except String Unit)
        (uai ud fk : Bool) (fO : Except String (List Complaint)) (e : String),
      (runResearch problem searchO claudeO cb uai ud fk fO).error = some e →
      (runResearch problem searchO claudeO cb uai ud fk fO).kill_reason
        = "Error during research: " ++ e) ∧
    (∀ (problem : String) (findall : Findall)
        (searchO : Except String (List Competitor)) (claudeO : MarketClaudeResp)
        (reviewsO : Nat → Except String (List Review))
        (cb : String → Except String Unit) (ud fk : Bool)
        (fO : Except String (List Competitor)) (e : String),
      (runAnalysis problem findall searchO claudeO reviewsO cb ud fk fO).error
          = some e →
      (runAnalysis problem findall searchO claudeO reviewsO cb ud fk fO).kill_reason
        = "Error during analysis: " ++ e) := by
  constructor
  · intro problem searchO claudeO cb uai ud fk fO e h
    rcases runResearch_error_shape problem searchO claudeO cb uai ud fk fO with
      ⟨r, e', heq⟩ | hnone
    · rw [heq] at h ⊢
      simp [painErrorOut] at h ⊢
      exact h ▸ rfl
    · rw [hnone] at h
      cases h
  · intro problem findall searchO claudeO reviewsO cb ud fk fO e h
    rcases runAnalysis_error_shape problem findall searchO claudeO reviewsO cb
        ud fk fO with ⟨r, e', heq⟩ | hnone
    · rw [heq] at h ⊢
      simp [marketErrorOut] at h ⊢
      exact h ▸ rfl
    · rw [hnone] at h
      cases h

/-- **C8 amended witness.** Both parts at concrete inputs: a callback that
raises immediately makes each stage return the matching error reason. -/
theorem c8_boundary_error_reason_amended_witness :
    (runResearch "p" (.ok []) .parseFailed (fun _ => .error "x") false false
      false (.ok [])).kill_reason = "Error during research: x" ∧
    (runAnalysis "p" (fun _ _ => []) (.ok []) .parseFailed (fun _ => .ok [])
      (fun _ => .error "y") false false (.ok [])).kill_reason
        = "Error during analysis: y" :=
  ⟨c8_boundary_error_reason_amended.1 "p" (.ok []) .parseFailed
      (fun _ => .error "x") false false false (.ok []) "x" (by decide),
   c8_boundary_error_reason_amended.2 "p" (fun _ _ => []) (.ok []) .parseFailed
      (fun _ => .ok []) (fun _ => .error "y") false false (.ok []) "y" (by decide)⟩

/-- Reachability invariant: in any reachable session, either a problem
description has been submitted, or the session is still on the input page
with no stage data at all. -/
theorem reachable_problem_invariant {s : Session} (h : ReachableSession s) :
    s.has_problem = true ∨
    (s.validation_stage = .input ∧ s.has_pain = false ∧ s.has_market = false ∧
      s.has_content = false ∧ s.has_survey_analysis = false ∧
      s.has_survey_questions = false) := by
  induction h with
  | init => exact Or.inr ⟨rfl, rfl, rfl, rfl, rfl, rfl⟩
  | @step s0 s1 _ hst ih =>
    cases hst with
    | nav t hn =>
      rcases ih with hp | ⟨hin, h1, h2, h3, h4, h5⟩
      · exact Or.inl hp
      · by_cases hp : s0.has_problem = true
        · exact Or.inl hp
        · exfalso
          have hb : s0.has_problem = false := by
            cases hhp : s0.has_problem
            · rfl
            · exact absurd hhp hp
          unfold navigable progressNavButton pageNavTargets completedStages at hn
          rw [hin, hb] at hn
          simp at hn
    | submitInput hstage => exact Or.inl rfl
    | runPain b hstage =>
      rcases ih with hp | ⟨hin, _⟩
      · exact Or.inl hp
      · rw [hstage] at hin
        cases hin
    | runMarket b hstage =>
      rcases ih with hp | ⟨hin, _⟩
      · exact Or.inl hp
      · rw [hstage] at hin
        cases hin
    | runContent b hstage =>
      rcases ih with hp | ⟨hin, _⟩
      · exact Or.inl hp
      · rw [hstage] at hin
        cases hin
    | genSurvey hstage =>
      rcases ih with hp | ⟨hin, _⟩
      · exact Or.inl hp
      · rw [hstage] at hin
        cases hin
    | analyzeSurvey b hstage =>
      rcases ih with hp | ⟨hin, _⟩
      · exact Or.inl hp
      · rw [hstage] at hin
        cases hin
    | restart => exact Or.inr ⟨rfl, rfl, rfl, rfl, rfl, rfl⟩

/-- **C9.** In every reachable session, every completed-or-visited stage
other than the current one has a navigation transition to it, and the set
of rendered navigation transitions is entirely independent of the recorded
kill verdicts: a kill never blocks navigation. -/
theorem c9_navigation_ignores_kills (s : Session) (t : Stage)
    (hr : ReachableSession s) (hc : completedStages s t = true)
    (hne : t ≠ s.validation_stage) :
    navigable s t = true ∧
    (∀ (pk mk ck sk : Bool) (u : Stage),
      navigable (withKills s pk mk ck sk) u = navigable s u) := by
  refine ⟨?_, fun pk mk ck sk u => rfl⟩
  by_cases hin : s.validation_stage = .input
  · rcases reachable_problem_invariant hr with hp | ⟨_, h1, h2, h3, h4, h5⟩
    · unfold navigable pageNavTargets
      rw [hin]
      unfold completedStages at hc
      cases t <;> simp_all
    · unfold completedStages at hc
      cases t <;> simp_all
  · unfold navigable progressNavButton
    have h1 : (s.validation_stage != Stage.input) = true := by
      cases hs : s.validation_stage <;> simp_all
    have h2 : (t != s.validation_stage) = true := by
      simp [bne, hne]
    rw [h1, hc, h2]
    simp

/-- **C9 witness.** The session reached by submitting a problem (current
stage: pain research): the completed input stage is navigable, and the
nav-button set is unchanged under any kill verdicts. -/
theorem c9_navigation_ignores_kills_witness :
    navigable ⟨.pain_research, true, false, false, false, false, false,
      false, false, false, false⟩ .input = true ∧
    (∀ (pk mk ck sk : Bool) (u : Stage),
      navigable (withKills ⟨.pain_research, true, false, false, false, false,
        false, false, false, false, false⟩ pk mk ck sk) u
        = navigable ⟨.pain_research, true, false, false, false, false, false,
            false, false, false, false⟩ u) :=
  c9_navigation_ignores_kills
    ⟨.pain_research, true, false, false, false, false, false, false, false,
      false, false⟩ .input
    (ReachableSession.step ReachableSession.init
      (UIStep.submitInput initSession rfl))
    (by decide) (by decide)

end KillSwitch
